import Mathlib

/-!
# Verification of the keyword-research core (`src/myseo/seo.py`)

Shallow embedding of the keyword-metrics retrieval-and-normalization
pipeline: the `KeywordMetrics` data model, the geo-id resolution and
result-capping loop of `SimpleKeywordResearch.search_keywords`, the
normalizer `_extract_metrics`, the reporter `print_summary`, the exporter
`save_results`, and the construction/authentication logic of
`SimpleKeywordResearch.__init__` / `_setup_client` / `_authenticate_oauth`.

Numeric modelling: Python ints are `ℤ`; Python floats produced by the code
(`micros / 1_000_000`, mean of volumes) are modelled as exact rationals
`ℚ`.  The only float values the claims constrain (integer micro-amounts
divided by 10^6 such as 2.50, bounds 0 and 1) are exactly representable,
so the rational model agrees with IEEE doubles there.  The remote Google
Ads service, the filesystem, interactive OAuth consent and the wall clock
are external collaborators; they enter the model as explicit parameters
(a response value, an existence predicate, a returned token, a timestamp
string).
-/

namespace MySeo

/-- ASCII model of Python's `str.lower()`, applied character by character
(`"uk"`, `"united kingdom"`, `"canada"`, `"csv"` are all ASCII, where
Python's `lower` and `Char.toLower` coincide). -/
def py_lower (s : String) : String := ⟨s.data.map Char.toLower⟩

/-- Model of Python's `s.replace('-', '')`: every `'-'` character removed. -/
def py_strip_dashes (s : String) : String := ⟨s.data.filter (fun c => c ≠ '-')⟩

/-- Python truthiness of an optional string (`os.getenv` result): `None`
and the empty string are falsy. -/
def py_truthy : Option String → Bool
  | none => false
  | some s => s != ""

/-- Python's `x if x else 0` / `x or 0` on an optional integer field:
a missing value and a (falsy) zero both give `0`. -/
def py_or_zero_int : Option ℤ → ℤ
  | none => 0
  | some v => if v = 0 then 0 else v

/-- Python's `(... ) or 0.0` on an optional float field. -/
def py_or_zero_rat : Option ℚ → ℚ
  | none => 0
  | some v => if v = 0 then 0 else v

/-- The `KeywordMetrics` pydantic model of `seo.py`, with its field
defaults (`search_volume=0`, `competition="UNKNOWN"`,
`competition_index=0.0`, bids `0.0`). -/
structure KeywordMetrics where
  keyword : String
  search_volume : ℤ := 0
  competition : String := "UNKNOWN"
  competition_index : ℚ := 0
  low_bid_usd : ℚ := 0
  high_bid_usd : ℚ := 0
deriving DecidableEq, Repr

/-- The metrics sub-record of one raw keyword idea as read by
`_extract_metrics` (`idea.keyword_idea_metrics`).  `none` models an
absent/unset field; for the proto enum `competition`, `none` models the
falsy UNSPECIFIED value and `some c` the enum's `.name`. -/
structure RawIdeaMetrics where
  avg_monthly_searches : Option ℤ := none
  competition : Option String := none
  competition_index : Option ℚ := none
  low_top_of_page_bid_micros : Option ℤ := none
  high_top_of_page_bid_micros : Option ℤ := none
deriving DecidableEq, Repr

/-- One raw idea record of the remote response (`idea.text`,
`idea.keyword_idea_metrics`). -/
structure RawIdea where
  text : String
  keyword_idea_metrics : RawIdeaMetrics := {}
deriving DecidableEq, Repr

/-- Model of `SimpleKeywordResearch._extract_metrics`, line by line:
`volume = metrics.avg_monthly_searches if metrics.avg_monthly_searches else 0`,
`competition = metrics.competition.name if metrics.competition else "UNKNOWN"`,
`comp_index = getattr(metrics, 'competition_index', 0.0) or 0.0`,
`low_bid = (metrics.low_top_of_page_bid_micros or 0) / 1_000_000`,
`high_bid = (metrics.high_top_of_page_bid_micros or 0) / 1_000_000`. -/
def _extract_metrics (idea : RawIdea) : KeywordMetrics :=
  let metrics := idea.keyword_idea_metrics
  { keyword := idea.text
    search_volume := py_or_zero_int metrics.avg_monthly_searches
    competition := match metrics.competition with
      | none => "UNKNOWN"
      | some name => name
    competition_index := py_or_zero_rat metrics.competition_index
    low_bid_usd := (py_or_zero_int metrics.low_top_of_page_bid_micros : ℚ) / 1000000
    high_bid_usd := (py_or_zero_int metrics.high_top_of_page_bid_micros : ℚ) / 1000000 }

/-- The geo-id resolution inside `search_keywords` (seo.py lines 99-103):
`location_id = "2840"`, overridden to `"2826"` when
`location.lower() in ["uk", "united kingdom"]` and to `"2124"` when
`location.lower() in ["canada"]`. -/
def resolve_location_id (location : String) : String :=
  if py_lower location = "uk" ∨ py_lower location = "united kingdom" then "2826"
  else if py_lower location = "canada" then "2124"
  else "2840"

/-- The result-collection loop of `search_keywords` (lines 112-117):
`for i, idea in enumerate(ideas): if i >= max_results: break;
results.append(self._extract_metrics(idea))`.  The first component is the
`results` list; the second counts how many items the loop pulled out of
the lazy remote sequence (each `cons` case is one `next()` that yielded an
item — including the final pull whose index fails the `i >= max_results`
check and triggers `break`; the `nil` case is the iterator's natural
exhaustion, which yields nothing). -/
def idea_loop_from (max_results : ℕ) : ℕ → List RawIdea → List KeywordMetrics × ℕ
  | _, [] => ([], 0)
  | i, idea :: rest =>
    if max_results ≤ i then ([], 1)
    else
      let p := idea_loop_from max_results (i + 1) rest
      (_extract_metrics idea :: p.1, p.2 + 1)

/-- The loop of `search_keywords` started at `i = 0`, as `enumerate` does. -/
def search_loop (max_results : ℕ) (ideas : List RawIdea) :
    List KeywordMetrics × ℕ :=
  idea_loop_from max_results 0 ideas

/-- One structured error of a `GoogleAdsException` failure
(`error.error_code`, `error.message` of `ex.failure.errors`). -/
structure AdsError where
  error_code : String
  message : String
deriving DecidableEq, Repr

/-- How the remote call can fail: a `GoogleAdsException` carrying the
service's structured error list (the spec's `RemoteServiceError`), or any
other exception (the spec's `UnexpectedError`).  `search_keywords` logs
and re-raises both unchanged (`raise` with no argument, lines 120-128). -/
inductive SearchFailure where
  | googleAdsException (errors : List AdsError)
  | unexpected (message : String)
deriving DecidableEq, Repr

/-- The request `search_keywords` sends: customer id, resolved geo id,
seed keywords, adult-content flag (language and network are fixed
constants in the source and carry no claim-relevant variation). -/
structure SearchRequest where
  customer_id : String
  geo_target_constant : String
  keywords : List String
  include_adult_keywords : Bool
deriving DecidableEq, Repr

/-- Model of `SimpleKeywordResearch.search_keywords` (lines 86-128).  The opaque
remote service is a parameter mapping the built request to either a
failure or the (already fully listed, but lazily consumed) sequence of
raw ideas.  On success the capped loop produces the results; on failure
the exception is re-raised unchanged — there is no retry (`remote` is
applied exactly once) and no partial result. -/
def search_keywords (customer_id : String)
    (remote : SearchRequest → Except SearchFailure (List RawIdea))
    (keywords : List String) (location : String) (max_results : ℕ)
    (include_adult_keywords : Bool) :
    Except SearchFailure (List KeywordMetrics) :=
  let request : SearchRequest :=
    { customer_id := customer_id
      geo_target_constant := resolve_location_id location
      keywords := keywords
      include_adult_keywords := include_adult_keywords }
  match remote request with
  | .error ex => .error ex
  | .ok ideas => .ok (search_loop max_results ideas).1

/-- The key order used by `print_summary`'s
`sorted(results, key=lambda x: x.search_volume, reverse=True)`:
`a` may come before `b` when `a`'s volume is at least `b`'s. -/
def vol_ge (a b : KeywordMetrics) : Prop :=
  b.search_volume ≤ a.search_volume

instance : DecidableRel vol_ge := fun a b =>
  inferInstanceAs (Decidable (b.search_volume ≤ a.search_volume))

instance : IsTotal KeywordMetrics vol_ge :=
  ⟨fun a b => (le_total b.search_volume a.search_volume).imp id id⟩

instance : IsTrans KeywordMetrics vol_ge :=
  ⟨fun _ _ _ hab hbc => le_trans hbc hab⟩

/-- Line 172, `sorted(results, key=lambda x: x.search_volume, reverse=True)[:3]`
(line 172).  Python's `sorted` is the stable sort; `reverse=True` reverses
the comparison, not the output, so equal keys keep input order.
`List.insertionSort vol_ge` is exactly that stable descending sort (an
inserted element goes before every element of equal volume that followed
it in the input). -/
def top3 (results : List KeywordMetrics) : List KeywordMetrics :=
  (List.insertionSort vol_ge results).take 3

/-- What one call of `print_summary` reports: either the early-return
"No results to summarize" warning (line 161-163), or the logged summary —
total count, average search volume (`sum(volumes)/len(volumes)`), the
`> 1000`-volume count, the `competition == "LOW"` count, and the top-3
list (lines 164-175). -/
inductive SummaryReport where
  | noResults
  | report (total : ℕ) (avg_search_volume : ℚ) (high_volume_count : ℕ)
      (low_competition_count : ℕ) (top_keywords : List KeywordMetrics)
deriving DecidableEq, Repr

/-- Holds exactly when the report carries count fields at all. -/
def SummaryReport.has_counts : SummaryReport → Bool
  | .noResults => false
  | .report .. => true

/-- Model of `SimpleKeywordResearch.print_summary` (lines 160-175).  `if not
results:` warn and return; otherwise log the aggregate counts, the mean
volume and the top-3 keywords. -/
def print_summary (results : List KeywordMetrics) : SummaryReport :=
  if results.isEmpty then .noResults
  else
    .report results.length
      ((results.map fun r => (r.search_volume : ℚ)).sum / results.length)
      (results.filter fun r => 1000 < r.search_volume).length
      (results.filter fun r => r.competition = "LOW").length
      (top3 results)

/-- One serialized field value of a `KeywordMetrics.model_dump()`. -/
inductive FieldVal where
  | str (v : String)
  | int (v : ℤ)
  | rat (v : ℚ)
deriving DecidableEq, Repr

/-- Pydantic `r.model_dump()`: the record's fields as ordered name/value pairs, in
pydantic declaration order. -/
def model_dump (r : KeywordMetrics) : List (String × FieldVal) :=
  [("keyword", .str r.keyword),
   ("search_volume", .int r.search_volume),
   ("competition", .str r.competition),
   ("competition_index", .rat r.competition_index),
   ("low_bid_usd", .rat r.low_bid_usd),
   ("high_bid_usd", .rat r.high_bid_usd)]

/-- The `KeywordMetrics` field names, in declaration order — the header
row `pandas.DataFrame(...).to_csv` writes. -/
def keyword_metrics_fields : List String :=
  ["keyword", "search_volume", "competition", "competition_index",
   "low_bid_usd", "high_bid_usd"]

/-- The file `save_results` writes: a comma-separated tabular file
(header row of the DataFrame's column names, one row of field values per
record, no index column) or a structured text file (a JSON array of
field-name/value objects). -/
inductive ExportFile where
  | csv (header : List String) (rows : List (List FieldVal))
  | json (objects : List (List (String × FieldVal)))
deriving DecidableEq, Repr

/-- Ordered union of key lists, first appearance first — how pandas
infers the columns of `pd.DataFrame(list_of_dicts)` from the dicts'
keys. -/
def ordered_union : List (List String) → List String
  | [] => []
  | ks :: rest => ks ++ (ordered_union rest).filter (fun k => decide (k ∉ ks))

/-- The columns of `pd.DataFrame([r.model_dump() for r in results])`:
derived from the records' dict keys, NOT a constant — an empty record
list yields a DataFrame with no columns at all, so `to_csv` then writes
no field-name header. -/
def dataframe_columns (results : List KeywordMetrics) : List String :=
  ordered_union (results.map fun r => (model_dump r).map Prod.fst)

/-- Model of `SimpleKeywordResearch.save_results` (lines 146-158).  The timestamp
(`datetime.now().strftime("%Y%m%d_%H%M%S")`, the wall clock being
external) is a parameter.  `if format.lower() == "csv"` write
`keywords_<ts>.csv` via `pd.DataFrame([r.model_dump() for r in
results]).to_csv(filename, index=False)` — the header being the columns
pandas derives from the record dicts (`dataframe_columns`); for every
other format value the `else` branch writes `keywords_<ts>.json` via
`json.dump`.  Returns the filename and the written content. -/
def save_results (results : List KeywordMetrics) (format : String)
    (timestamp : String) : String × ExportFile :=
  if py_lower format = "csv" then
    ("keywords_" ++ timestamp ++ ".csv",
      .csv (dataframe_columns results)
        (results.map fun r => (model_dump r).map Prod.snd))
  else
    ("keywords_" ++ timestamp ++ ".json",
      .json (results.map model_dump))

/-- The environment variables `seo.py` reads, `none` when unset. -/
structure Env where
  customer_id : Option String := none
  login_customer_id : Option String := none
  refresh_token : Option String := none
  developer_token : Option String := none
  client_id : Option String := none
  client_secret : Option String := none
  client_token_path : Option String := none
deriving DecidableEq, Repr

/-- The config dict passed to `GoogleAdsClient.load_from_dict` (built at
lines 53-62 or 75-83); `login_customer_id` is present only when the raw
environment value is truthy, and is dash-stripped. -/
structure ClientConfig where
  developer_token : Option String
  client_id : Option String
  client_secret : Option String
  refresh_token : String
  login_customer_id : Option String := none
deriving DecidableEq, Repr

/-- The two exceptions construction can raise: `FileNotFoundError`
(`GOOGLE_ADS_CLIENT_TOKEN_PATH not found`, line 70 — the spec's
`CredentialError`) and `ValueError` (`GOOGLE_ADS_CUSTOMER_ID ... is
required`, line 44 — the spec's `ConfigurationError`). -/
inductive InitError where
  | fileNotFoundError
  | valueError
deriving DecidableEq, Repr

/-- The common config built in both authentication paths. -/
def build_config (env : Env) (refresh_token : String) : ClientConfig :=
  { developer_token := env.developer_token
    client_id := env.client_id
    client_secret := env.client_secret
    refresh_token := refresh_token
    login_customer_id :=
      if py_truthy env.login_customer_id then
        some (py_strip_dashes (env.login_customer_id.getD ""))
      else none }

/-- Model of `SimpleKeywordResearch._authenticate_oauth` (lines 67-84).  `fs` is
`os.path.exists`; `if not token_path or not os.path.exists(token_path):
raise FileNotFoundError`.  The interactive consent flow
(`InstalledAppFlow... run_local_server`) is an external collaborator; per
the spec it returns a refresh token on success, modelled by the
`flow_refresh_token` parameter. -/
def _authenticate_oauth (env : Env) (fs : String → Bool)
    (flow_refresh_token : String) : Except InitError ClientConfig :=
  if !(py_truthy env.client_token_path) || !(fs (env.client_token_path.getD "")) then
    .error .fileNotFoundError
  else
    .ok (build_config env flow_refresh_token)

/-- Model of `SimpleKeywordResearch._setup_client` (lines 49-65): a truthy
`GOOGLE_ADS_REFRESH_TOKEN` is used directly; otherwise fall through to
the OAuth path. -/
def _setup_client (env : Env) (fs : String → Bool)
    (flow_refresh_token : String) : Except InitError ClientConfig :=
  if py_truthy env.refresh_token then
    .ok (build_config env (env.refresh_token.getD ""))
  else
    _authenticate_oauth env fs flow_refresh_token

/-- The refresh token the built client ends up holding: the environment's
when it is truthy, otherwise the one the interactive consent flow
returned. -/
def effective_refresh_token (env : Env) (flow_refresh_token : String) : String :=
  if py_truthy env.refresh_token then env.refresh_token.getD ""
  else flow_refresh_token

/-- The constructed research object: the client config plus the
dash-stripped target and login customer ids (lines 40-42). -/
structure SimpleKeywordResearch where
  client : ClientConfig
  customer_id : String
  login_customer_id : String
deriving DecidableEq, Repr

/-- Model of `SimpleKeywordResearch.__init__` (lines 38-47): build the client
FIRST (line 40), then read and dash-strip the customer ids (lines 41-42),
then `if not self.customer_id: raise ValueError` (line 43). -/
def SimpleKeywordResearch.init (env : Env) (fs : String → Bool)
    (flow_refresh_token : String) : Except InitError SimpleKeywordResearch :=
  match _setup_client env fs flow_refresh_token with
  | .error ex => .error ex
  | .ok client =>
    let customer_id := py_strip_dashes (env.customer_id.getD "")
    let login_customer_id := py_strip_dashes (env.login_customer_id.getD "")
    if customer_id = "" then .error .valueError
    else .ok { client := client, customer_id := customer_id,
               login_customer_id := login_customer_id }

/-- The exact condition under which construction raises
`FileNotFoundError`: no truthy refresh token in the environment, and the
consent-artifact path is unset/empty or does not exist on disk. -/
def credential_failure (env : Env) (fs : String → Bool) : Prop :=
  py_truthy env.refresh_token = false ∧
    (py_truthy env.client_token_path = false ∨
      fs (env.client_token_path.getD "") = false)

instance (env : Env) (fs : String → Bool) :
    Decidable (credential_failure env fs) :=
  inferInstanceAs (Decidable (_ ∧ (_ ∨ _)))

/-- Closed form of the collection loop, for any starting index: the
results are the normalized first `max_results - i` ideas, and the number
of items pulled from the sequence is one more than that (the pull that
trips the bound check), clipped to the sequence length. -/
theorem idea_loop_from_spec (max_results : ℕ) (ideas : List RawIdea) :
    ∀ i : ℕ,
      (idea_loop_from max_results i ideas).1 =
          (ideas.take (max_results - i)).map _extract_metrics ∧
        (idea_loop_from max_results i ideas).2 =
          min ideas.length (max_results - i + 1) := by
  induction ideas with
  | nil => intro i; simp [idea_loop_from]
  | cons idea rest ih =>
    intro i
    by_cases h : max_results ≤ i
    · have h0 : max_results - i = 0 := Nat.sub_eq_zero_of_le h
      refine ⟨by simp [idea_loop_from, h, h0], ?_⟩
      simp only [idea_loop_from, if_pos h, h0, List.length_cons]
      omega
    · obtain ⟨ih1, ih2⟩ := ih (i + 1)
      have hk : max_results - i = (max_results - (i + 1)) + 1 := by omega
      refine ⟨?_, ?_⟩
      · simp only [idea_loop_from, if_neg h, ih1, hk, List.take_succ_cons,
          List.map_cons]
      · simp only [idea_loop_from, if_neg h, ih2, hk, List.length_cons]
        omega

/-- C1 (amended): for every remote idea sequence and positive
`max_results`, `search_keywords` returns exactly the first
`min max_results (length)` ideas, normalized, in the remote order — but
the loop pulls up to `max_results + 1` items out of the lazy sequence
(`min (length) (max_results + 1)` exactly), because `enumerate` yields an
item before the `i >= max_results` check breaks. -/
theorem search_keywords_cap (ideas : List RawIdea) (max_results : ℕ)
    (hpos : 0 < max_results) (customer_id : String) (keywords : List String)
    (location : String) (include_adult : Bool) :
    (search_loop max_results ideas).1 =
        (ideas.take max_results).map _extract_metrics ∧
      (search_loop max_results ideas).1.length ≤ max_results ∧
      (search_loop max_results ideas).2 = min ideas.length (max_results + 1) ∧
      search_keywords customer_id (fun _ => .ok ideas) keywords location
          max_results include_adult =
        .ok ((ideas.take max_results).map _extract_metrics) := by
  obtain ⟨h1, h2⟩ := idea_loop_from_spec max_results ideas 0
  rw [Nat.sub_zero] at h1 h2
  refine ⟨h1, ?_, h2, ?_⟩
  · unfold search_loop
    rw [h1, List.length_map, List.length_take]
    exact min_le_left _ _
  · exact congrArg Except.ok h1

/-- C1 witness: the boundary instance of the amended claim at
`max_results = 2` over a 3-idea remote sequence. -/
theorem search_keywords_cap_witness :
    (MySeo.search_loop 2 [⟨"a", {}⟩, ⟨"b", {}⟩, ⟨"c", {}⟩]).1 =
        ([(⟨"a", {}⟩ : MySeo.RawIdea), ⟨"b", {}⟩].map MySeo._extract_metrics) ∧
      (MySeo.search_loop 2 [⟨"a", {}⟩, ⟨"b", {}⟩, ⟨"c", {}⟩]).2 = 3 :=
  have h := MySeo.search_keywords_cap [⟨"a", {}⟩, ⟨"b", {}⟩, ⟨"c", {}⟩] 2
    (by decide) "cid" ["kw"] "United States" false
  ⟨h.1, h.2.2.1⟩

/-- C1 counterexample: with a remote sequence of 3 ideas and
`max_results = 2`, the loop materializes 3 items from the sequence —
more than `max_results` — even though only 2 records are returned. -/
theorem search_loop_pulls_one_extra :
    (MySeo.search_loop 2 [⟨"a", {}⟩, ⟨"b", {}⟩, ⟨"c", {}⟩]).2 = 3 ∧
      ¬((MySeo.search_loop 2 [⟨"a", {}⟩, ⟨"b", {}⟩, ⟨"c", {}⟩]).2 ≤ 2) ∧
      (MySeo.search_loop 2 [⟨"a", {}⟩, ⟨"b", {}⟩, ⟨"c", {}⟩]).1.length = 2 := by
  decide

/-- C2: the geo-id resolver always yields one of the three known ids;
a case-insensitive "uk"/"united kingdom" yields 2826, a case-insensitive
"canada" yields 2124, and every other location — "united states" and the
empty string included — yields the US default 2840.  Being a total
function, it never fails. -/
theorem resolve_location_id_spec (location : String) :
    (resolve_location_id location = "2826" ∨
        resolve_location_id location = "2124" ∨
        resolve_location_id location = "2840") ∧
      (py_lower location = "uk" ∨ py_lower location = "united kingdom" →
        resolve_location_id location = "2826") ∧
      (py_lower location = "canada" → resolve_location_id location = "2124") ∧
      (py_lower location ≠ "uk" → py_lower location ≠ "united kingdom" →
        py_lower location ≠ "canada" → resolve_location_id location = "2840") ∧
      resolve_location_id "united states" = "2840" ∧
      resolve_location_id "United States" = "2840" ∧
      resolve_location_id "" = "2840" := by
  refine ⟨?_, ?_, ?_, ?_, by decide, by decide, by decide⟩
  · by_cases h1 : py_lower location = "uk" ∨ py_lower location = "united kingdom"
    · exact Or.inl (by simp [resolve_location_id, h1])
    · by_cases h2 : py_lower location = "canada"
      · exact Or.inr (Or.inl (by simp [resolve_location_id, h1, h2]))
      · exact Or.inr (Or.inr (by simp [resolve_location_id, h1, h2]))
  · intro h1; simp [resolve_location_id, h1]
  · intro h2
    by_cases h1 : py_lower location = "uk" ∨ py_lower location = "united kingdom"
    · rcases h1 with h1 | h1 <;> simp [h1] at h2
    · simp [resolve_location_id, h1, h2]
  · intro hu hk hc
    have h1 : ¬(py_lower location = "uk" ∨ py_lower location = "united kingdom") := by
      rintro (h | h) <;> [exact hu h; exact hk h]
    simp [resolve_location_id, h1, hc]

/-- C2 witness: the resolver evaluated on concrete mixed-case inputs. -/
theorem resolve_location_id_spec_witness :
    MySeo.resolve_location_id "Canada" = "2124" ∧
      MySeo.resolve_location_id "UK" = "2826" :=
  ⟨(MySeo.resolve_location_id_spec "Canada").2.2.1 (by decide),
    (MySeo.resolve_location_id_spec "UK").2.1 (Or.inl (by decide))⟩

/-- C3: the normalizer maps a missing `avg_monthly_searches` to 0, a
missing `competition` to "UNKNOWN", a missing `competition_index` to 0.0,
and converts each micro-unit bid (0 when absent) by exact division by
1,000,000 — `low_bid_usd * 1000000` recovers the integer exactly — with
2,500,000 micros giving exactly 2.50. -/
theorem extract_metrics_defaults (idea : RawIdea) :
    (idea.keyword_idea_metrics.avg_monthly_searches = none →
        (_extract_metrics idea).search_volume = 0) ∧
      (idea.keyword_idea_metrics.competition = none →
        (_extract_metrics idea).competition = "UNKNOWN") ∧
      (idea.keyword_idea_metrics.competition_index = none →
        (_extract_metrics idea).competition_index = 0) ∧
      (idea.keyword_idea_metrics.low_top_of_page_bid_micros = none →
        (_extract_metrics idea).low_bid_usd = 0) ∧
      (idea.keyword_idea_metrics.high_top_of_page_bid_micros = none →
        (_extract_metrics idea).high_bid_usd = 0) ∧
      (∀ n : ℤ, idea.keyword_idea_metrics.low_top_of_page_bid_micros = some n →
        (_extract_metrics idea).low_bid_usd = (n : ℚ) / 1000000 ∧
          (_extract_metrics idea).low_bid_usd * 1000000 = (n : ℚ)) ∧
      (∀ n : ℤ, idea.keyword_idea_metrics.high_top_of_page_bid_micros = some n →
        (_extract_metrics idea).high_bid_usd = (n : ℚ) / 1000000 ∧
          (_extract_metrics idea).high_bid_usd * 1000000 = (n : ℚ)) ∧
      (idea.keyword_idea_metrics.low_top_of_page_bid_micros = some 2500000 →
        (_extract_metrics idea).low_bid_usd = 2.50) ∧
      (idea.keyword_idea_metrics.high_top_of_page_bid_micros = some 2500000 →
        (_extract_metrics idea).high_bid_usd = 2.50) := by
  have hdiv : ∀ o : Option ℤ, ∀ n : ℤ, o = some n →
      (py_or_zero_int o : ℚ) / 1000000 = (n : ℚ) / 1000000 ∧
        (py_or_zero_int o : ℚ) / 1000000 * 1000000 = (n : ℚ) := by
    intro o n ho
    subst ho
    by_cases hn : n = 0
    · subst hn; norm_num [py_or_zero_int]
    · rw [py_or_zero_int, if_neg hn]
      norm_num
  refine ⟨?_, ?_, ?_, ?_, ?_, ?_, ?_, ?_, ?_⟩
  · intro h; simp [_extract_metrics, h, py_or_zero_int]
  · intro h; simp [_extract_metrics, h]
  · intro h; simp [_extract_metrics, h, py_or_zero_rat]
  · intro h; simp [_extract_metrics, h, py_or_zero_int]
  · intro h; simp [_extract_metrics, h, py_or_zero_int]
  · intro n hn
    exact hdiv _ n hn
  · intro n hn
    exact hdiv _ n hn
  · intro h
    have := (hdiv _ 2500000 h).1
    rw [_extract_metrics] at *
    rw [this]
    norm_num
  · intro h
    have := (hdiv _ 2500000 h).1
    rw [_extract_metrics] at *
    rw [this]
    norm_num

/-- C3 witness: the normalizer evaluated on a record with all metrics
absent, and on one with a 2,500,000-micro low bid. -/
theorem extract_metrics_defaults_witness :
    (MySeo._extract_metrics ⟨"kw", {}⟩).search_volume = 0 ∧
      (MySeo._extract_metrics ⟨"kw", {}⟩).competition = "UNKNOWN" ∧
      (MySeo._extract_metrics
          ⟨"kw", { low_top_of_page_bid_micros := some 2500000 }⟩).low_bid_usd =
        2.50 :=
  ⟨(MySeo.extract_metrics_defaults ⟨"kw", {}⟩).1 rfl,
    (MySeo.extract_metrics_defaults ⟨"kw", {}⟩).2.1 rfl,
    (MySeo.extract_metrics_defaults
      ⟨"kw", { low_top_of_page_bid_micros := some 2500000 }⟩).2.2.2.2.2.2.2.1 rfl⟩

/-- C4: on well-formed input (non-negative integer counts and micro-bids,
a competition index within [0, 1]), the normalized record has
non-negative `search_volume`, `low_bid_usd` and `high_bid_usd`, and a
`competition_index` within [0, 1]. -/
theorem extract_metrics_ranges (idea : RawIdea)
    (hvol : ∀ n : ℤ, idea.keyword_idea_metrics.avg_monthly_searches = some n → 0 ≤ n)
    (hidx : ∀ q : ℚ, idea.keyword_idea_metrics.competition_index = some q →
      0 ≤ q ∧ q ≤ 1)
    (hlow : ∀ n : ℤ, idea.keyword_idea_metrics.low_top_of_page_bid_micros = some n → 0 ≤ n)
    (hhigh : ∀ n : ℤ, idea.keyword_idea_metrics.high_top_of_page_bid_micros = some n → 0 ≤ n) :
    0 ≤ (_extract_metrics idea).search_volume ∧
      0 ≤ (_extract_metrics idea).low_bid_usd ∧
      0 ≤ (_extract_metrics idea).high_bid_usd ∧
      0 ≤ (_extract_metrics idea).competition_index ∧
      (_extract_metrics idea).competition_index ≤ 1 := by
  have hint : ∀ (o : Option ℤ), (∀ n : ℤ, o = some n → 0 ≤ n) →
      0 ≤ py_or_zero_int o := by
    intro o ho
    match o with
    | none => simp [py_or_zero_int]
    | some v =>
      rw [py_or_zero_int]
      by_cases hv : v = 0
      · simp [hv]
      · rw [if_neg hv]; exact ho v rfl
  have hdivnn : ∀ (o : Option ℤ), (∀ n : ℤ, o = some n → 0 ≤ n) →
      0 ≤ (py_or_zero_int o : ℚ) / 1000000 := by
    intro o ho
    have := hint o ho
    positivity
  refine ⟨hint _ hvol, hdivnn _ hlow, hdivnn _ hhigh, ?_, ?_⟩
  · rw [_extract_metrics]
    match hq : idea.keyword_idea_metrics.competition_index with
    | none => simp [py_or_zero_rat]
    | some q =>
      rw [py_or_zero_rat]
      by_cases h0 : q = 0
      · simp [h0]
      · rw [if_neg h0]; exact (hidx q hq).1
  · rw [_extract_metrics]
    match hq : idea.keyword_idea_metrics.competition_index with
    | none => simp [py_or_zero_rat]
    | some q =>
      rw [py_or_zero_rat]
      by_cases h0 : q = 0
      · simp [h0]
      · rw [if_neg h0]; exact (hidx q hq).2

/-- C4 witness: the range invariant evaluated on one concrete well-formed
record. -/
theorem extract_metrics_ranges_witness :
    0 ≤ (MySeo._extract_metrics
        ⟨"kw", ⟨some 1200, some "HIGH", some (7/10), some 250000, some 2500000⟩⟩).search_volume ∧
      0 ≤ (MySeo._extract_metrics
        ⟨"kw", ⟨some 1200, some "HIGH", some (7/10), some 250000, some 2500000⟩⟩).low_bid_usd ∧
      0 ≤ (MySeo._extract_metrics
        ⟨"kw", ⟨some 1200, some "HIGH", some (7/10), some 250000, some 2500000⟩⟩).high_bid_usd ∧
      0 ≤ (MySeo._extract_metrics
        ⟨"kw", ⟨some 1200, some "HIGH", some (7/10), some 250000, some 2500000⟩⟩).competition_index ∧
      (MySeo._extract_metrics
        ⟨"kw", ⟨some 1200, some "HIGH", some (7/10), some 250000, some 2500000⟩⟩).competition_index ≤ 1 :=
  MySeo.extract_metrics_ranges
    ⟨"kw", ⟨some 1200, some "HIGH", some (7/10), some 250000, some 2500000⟩⟩
    (by simp) (by norm_num) (by simp) (by simp)

/-- C7: when the remote call fails, `search_keywords` re-raises the very
same exception — a `GoogleAdsException` keeps its structured error list,
any other exception stays the unexpected kind — the remote function is
consulted once with no retry, and no (partial) result list is returned. -/
theorem search_keywords_failure (customer_id : String) (keywords : List String)
    (location : String) (max_results : ℕ) (include_adult : Bool)
    (ex : SearchFailure) :
    search_keywords customer_id (fun _ => .error ex) keywords location
        max_results include_adult = .error ex ∧
      (∀ res : List KeywordMetrics,
        search_keywords customer_id (fun _ => .error ex) keywords location
          max_results include_adult ≠ .ok res) ∧
      (∀ errors : List AdsError, ex = .googleAdsException errors →
        search_keywords customer_id (fun _ => .error ex) keywords location
            max_results include_adult = .error (.googleAdsException errors)) ∧
      (∀ message : String, ex = .unexpected message →
        search_keywords customer_id (fun _ => .error ex) keywords location
            max_results include_adult = .error (.unexpected message)) := by
  refine ⟨rfl, ?_, ?_, ?_⟩
  · intro res h
    exact Except.noConfusion h
  · intro errors he; subst he; rfl
  · intro message he; subst he; rfl

/-- C7 witness: a concrete structured remote rejection, and a concrete
transport fault, each surfaced unchanged with zero results. -/
theorem search_keywords_failure_witness :
    MySeo.search_keywords "123" (fun _ =>
        .error (.googleAdsException [⟨"RESOURCE_EXHAUSTED", "quota"⟩]))
        ["python programming"] "Canada" 50 false =
      .error (.googleAdsException [⟨"RESOURCE_EXHAUSTED", "quota"⟩]) ∧
      MySeo.search_keywords "123" (fun _ => .error (.unexpected "timeout"))
          ["python programming"] "Canada" 50 false =
        .error (.unexpected "timeout") :=
  ⟨(MySeo.search_keywords_failure "123" ["python programming"] "Canada" 50
      false (.googleAdsException [⟨"RESOURCE_EXHAUSTED", "quota"⟩])).1,
    (MySeo.search_keywords_failure "123" ["python programming"] "Canada" 50
      false (.unexpected "timeout")).2.2.2 "timeout" rfl⟩

/-- Filtering a list for elements outside a list that contains them all
leaves nothing. -/
theorem filter_not_mem_self (ks : List String) (m : List String)
    (hm : ∀ k ∈ m, k ∈ ks) :
    m.filter (fun k => decide (k ∉ ks)) = [] := by
  induction m with
  | nil => rfl
  | cons b bs ihb =>
    have hb : b ∈ ks := hm b (List.mem_cons_self b bs)
    have hdb : decide (b ∉ ks) = false := decide_eq_false (not_not_intro hb)
    rw [List.filter_cons, hdb]
    simp only [Bool.false_eq_true, if_false]
    exact ihb fun k hk => hm k (List.mem_cons_of_mem b hk)

/-- On a list whose key lists are all the same, the pandas column union
is that key list (or nothing, for no records at all). -/
theorem ordered_union_const (ks : List String) (l : List (List String))
    (h : ∀ x ∈ l, x = ks) :
    ordered_union l = if l = [] then [] else ks := by
  induction l with
  | nil => rfl
  | cons a rest ih =>
    have ha : a = ks := h a (List.mem_cons_self a rest)
    have hrest : ∀ x ∈ rest, x = ks := fun x hx => h x (List.mem_cons_of_mem a hx)
    rw [if_neg (List.cons_ne_nil a rest)]
    simp only [ordered_union]
    rw [ha, ih hrest]
    by_cases hr : rest = []
    · rw [if_pos hr]
      simp
    · rw [if_neg hr, filter_not_mem_self ks ks fun k hk => hk]
      simp

/-- For at least one record, the DataFrame's columns are exactly the
`KeywordMetrics` field names, in declaration order. -/
theorem dataframe_columns_of_ne_nil (results : List KeywordMetrics)
    (h : results ≠ []) :
    dataframe_columns results = keyword_metrics_fields := by
  cases results with
  | nil => exact absurd rfl h
  | cons r rest =>
    rw [dataframe_columns]
    have hall : ∀ x ∈ (r :: rest).map (fun r => (model_dump r).map Prod.fst),
        x = keyword_metrics_fields := by
      intro x hx
      rcases List.mem_map.mp hx with ⟨y, _, rfl⟩
      rfl
    rw [ordered_union_const keyword_metrics_fields _ hall]
    simp

/-- C9 counterexample: exporting the EMPTY sequence in the tabular form
writes a headerless file — `pd.DataFrame([])` has no columns, so
`to_csv` emits no field names — refuting the claim's unconditional
"header = field names". -/
theorem save_results_empty_headerless :
    MySeo.save_results [] "csv" "20260101_000000" =
        ("keywords_20260101_000000.csv", .csv [] []) ∧
      MySeo.save_results [] "csv" "20260101_000000" ≠
        ("keywords_20260101_000000.csv",
          .csv MySeo.keyword_metrics_fields []) := by
  decide

/-- C9 (amended): `save_results` writes the full ordered sequence — to
the comma-separated tabular form named `keywords_<timestamp>.csv` exactly
when the format is "csv" case-insensitively, with the header derived from
the records (the field names whenever at least one record exists, and a
headerless file for the empty sequence) and one row per record in order —
and to the structured text form (array of field-name/value objects, in
order) named `keywords_<timestamp>.json` for every other format value. -/
theorem save_results_spec (results : List KeywordMetrics)
    (format timestamp : String) :
    (py_lower format = "csv" →
        save_results results format timestamp =
          ("keywords_" ++ timestamp ++ ".csv",
            .csv (dataframe_columns results)
              (results.map fun r => (model_dump r).map Prod.snd))) ∧
      (py_lower format = "csv" → results ≠ [] →
        save_results results format timestamp =
          ("keywords_" ++ timestamp ++ ".csv",
            .csv keyword_metrics_fields
              (results.map fun r => (model_dump r).map Prod.snd))) ∧
      (py_lower format ≠ "csv" →
        save_results results format timestamp =
          ("keywords_" ++ timestamp ++ ".json",
            .json (results.map model_dump))) ∧
      ((save_results results format timestamp).1 =
          "keywords_" ++ timestamp ++ ".csv" ∨
        (save_results results format timestamp).1 =
          "keywords_" ++ timestamp ++ ".json") := by
  refine ⟨?_, ?_, ?_, ?_⟩
  · intro h; simp [save_results, h]
  · intro h hne
    simp [save_results, h, dataframe_columns_of_ne_nil results hne]
  · intro h; simp [save_results, h]
  · by_cases h : py_lower format = "csv"
    · exact Or.inl (by simp [save_results, h])
    · exact Or.inr (by simp [save_results, h])

/-- C9 witness: a concrete record exported under an uppercase "CSV"
format (field-name header present for the non-empty input) and under an
unrecognized "xml" format. -/
theorem save_results_spec_witness :
    MySeo.save_results [{ keyword := "kw" }] "CSV" "20260101_000000" =
        ("keywords_20260101_000000.csv",
          .csv MySeo.keyword_metrics_fields
            [[.str "kw", .int 0, .str "UNKNOWN", .rat 0, .rat 0, .rat 0]]) ∧
      MySeo.save_results [{ keyword := "kw" }] "xml" "20260101_000000" =
        ("keywords_20260101_000000.json",
          .json [[("keyword", .str "kw"), ("search_volume", .int 0),
            ("competition", .str "UNKNOWN"), ("competition_index", .rat 0),
            ("low_bid_usd", .rat 0), ("high_bid_usd", .rat 0)]]) :=
  ⟨(MySeo.save_results_spec [{ keyword := "kw" }] "CSV" "20260101_000000").2.1
      (by decide) (by decide),
    (MySeo.save_results_spec [{ keyword := "kw" }] "xml" "20260101_000000").2.2.1
      (by decide)⟩

/-- Stability of the descending stable sort under each volume value: the
elements of any given `search_volume` come out of the sort in exactly
their input order (so the sort only reorders across distinct volumes). -/
theorem insertionSort_filter_vol (results : List KeywordMetrics) (v : ℤ) :
    (List.insertionSort vol_ge results).filter
        (fun r => r.search_volume = v) =
      results.filter (fun r => r.search_volume = v) := by
  have hpair : (results.filter (fun r => r.search_volume = v)).Pairwise vol_ge := by
    refine List.pairwise_of_forall_mem_list ?_
    intro a ha b hb
    have ha' := (List.mem_filter.mp ha).2
    have hb' := (List.mem_filter.mp hb).2
    have ha2 : a.search_volume = v := by simpa using ha'
    have hb2 : b.search_volume = v := by simpa using hb'
    rw [vol_ge, ha2, hb2]
  have hsub : List.Sublist (results.filter (fun r => r.search_volume = v))
      (List.insertionSort vol_ge results) :=
    List.sublist_insertionSort hpair (List.filter_sublist results)
  have hsub2 : List.Sublist (results.filter (fun r => r.search_volume = v))
      ((List.insertionSort vol_ge results).filter (fun r => r.search_volume = v)) := by
    have := hsub.filter (fun r => decide (r.search_volume = v))
    simpa using this
  have hlen : ((List.insertionSort vol_ge results).filter
        (fun r => r.search_volume = v)).length =
      (results.filter (fun r => r.search_volume = v)).length :=
    ((List.perm_insertionSort vol_ge results).filter _).length_eq
  exact (hsub2.eq_of_length hlen.symm).symm

/-- C5: on a non-empty input, `print_summary` reports the top-3 list
computed by the stable descending sort: the result of `summarize` carries
`top3 results`, which has `min 3 (length)` items, is descending in
`search_volume`, consists (with some remainder) of a permutation of the
input, dominates every element the sort left below rank 3, and — the
stability property — for every volume value, its elements of that volume
form an initial segment of the input's elements of that volume, in input
order. -/
theorem print_summary_top3_stable (results : List KeywordMetrics)
    (hne : results ≠ []) :
    print_summary results =
        .report results.length
          ((results.map fun r => (r.search_volume : ℚ)).sum / results.length)
          (results.filter fun r => 1000 < r.search_volume).length
          (results.filter fun r => r.competition = "LOW").length
          (top3 results) ∧
      (top3 results).length = min 3 results.length ∧
      (top3 results).Pairwise vol_ge ∧
      (∃ rest, List.Perm (top3 results ++ rest) results) ∧
      (∀ x ∈ (List.insertionSort vol_ge results).drop 3, ∀ y ∈ top3 results,
        x.search_volume ≤ y.search_volume) ∧
      (∀ v : ℤ, ∃ rest,
        (top3 results).filter (fun r => r.search_volume = v) ++ rest =
          results.filter (fun r => r.search_volume = v)) := by
  have hperm := List.perm_insertionSort vol_ge results
  have hsorted : (List.insertionSort vol_ge results).Pairwise vol_ge :=
    List.sorted_insertionSort vol_ge results
  have hsplit : top3 results ++ (List.insertionSort vol_ge results).drop 3 =
      List.insertionSort vol_ge results := by
    rw [top3, List.take_append_drop]
  refine ⟨?_, ?_, ?_, ?_, ?_, ?_⟩
  · rw [print_summary, if_neg (by simpa using hne)]
  · rw [top3, List.length_take, hperm.length_eq, Nat.min_comm]
  · exact hsorted.sublist (List.take_sublist 3 _)
  · exact ⟨(List.insertionSort vol_ge results).drop 3, by rw [hsplit]; exact hperm⟩
  · intro x hx y hy
    have := (List.pairwise_append.mp (by rw [hsplit]; exact hsorted)).2.2
    exact this y hy x hx
  · intro v
    refine ⟨((List.insertionSort vol_ge results).drop 3).filter
      (fun r => r.search_volume = v), ?_⟩
    rw [← List.filter_append, hsplit, insertionSort_filter_vol]

/-- C5 witness: the top-3 properties evaluated on a concrete 4-record
input containing a volume tie (the two volume-100 records keep their
input order in the output). -/
theorem print_summary_top3_stable_witness :
    MySeo.top3 [{ keyword := "a", search_volume := 100 },
        { keyword := "b", search_volume := 2000 },
        { keyword := "c", search_volume := 100 },
        { keyword := "d", search_volume := 50 }] =
      [{ keyword := "b", search_volume := 2000 },
        { keyword := "a", search_volume := 100 },
        { keyword := "c", search_volume := 100 }] ∧
      (MySeo.top3 [{ keyword := "a", search_volume := 100 },
        { keyword := "b", search_volume := 2000 },
        { keyword := "c", search_volume := 100 },
        { keyword := "d", search_volume := 50 }]).length = min 3 4 :=
  ⟨by decide,
    (MySeo.print_summary_top3_stable
      [{ keyword := "a", search_volume := 100 },
        { keyword := "b", search_volume := 2000 },
        { keyword := "c", search_volume := 100 },
        { keyword := "d", search_volume := 50 }] (by decide)).2.1⟩

/-- C6 counterexample: on the empty sequence `print_summary` takes the
early-return branch: it emits the no-results warning only and reports no
counts at all — in particular it does not report zero counts. -/
theorem print_summary_empty_reports_nothing :
    MySeo.print_summary [] = MySeo.SummaryReport.noResults ∧
      (MySeo.print_summary []).has_counts = false := by
  decide

/-- C6 (amended): on the empty sequence `print_summary` returns the
"no results" signal before any aggregate is computed, so the
`sum(volumes)/len(volumes)` mean — reached only in the non-empty branch —
can raise no division error; no counts (zero or otherwise) are
reported. -/
theorem print_summary_empty : print_summary [] = SummaryReport.noResults :=
  rfl

/-- Closed form of construction: the credential check of `_setup_client`
runs first (line 40 precedes line 43), then the emptiness check of the
dash-stripped customer id, then success. -/
theorem init_cases (env : Env) (fs : String → Bool) (tok : String) :
    SimpleKeywordResearch.init env fs tok =
      if credential_failure env fs then .error .fileNotFoundError
      else if py_strip_dashes (env.customer_id.getD "") = "" then
        .error .valueError
      else
        .ok { client := build_config env (effective_refresh_token env tok)
              customer_id := py_strip_dashes (env.customer_id.getD "")
              login_customer_id := py_strip_dashes (env.login_customer_id.getD "") } := by
  by_cases hr : py_truthy env.refresh_token
  · have hcf : ¬ credential_failure env fs := by
      rw [credential_failure, hr]
      simp
    rw [SimpleKeywordResearch.init, _setup_client, if_pos hr, if_neg hcf,
      effective_refresh_token, if_pos hr]
  · have hr' : py_truthy env.refresh_token = false := by
      simpa using hr
    by_cases hc : (!(py_truthy env.client_token_path) ||
        !(fs (env.client_token_path.getD ""))) = true
    · have hcf : credential_failure env fs := by
        rw [credential_failure]
        refine ⟨hr', ?_⟩
        rcases Bool.or_eq_true_iff.mp hc with h | h
        · exact Or.inl (by simpa using h)
        · exact Or.inr (by simpa using h)
      rw [SimpleKeywordResearch.init, _setup_client, if_neg hr,
        _authenticate_oauth, if_pos hc, if_pos hcf]
    · have hcf : ¬ credential_failure env fs := by
        rw [credential_failure, hr']
        simp only [Bool.or_eq_true, Bool.not_eq_true'] at hc
        push_neg at hc
        simp only [hc.1, hc.2]
        simp
      rw [SimpleKeywordResearch.init, _setup_client, if_neg hr,
        _authenticate_oauth, if_neg hc, if_neg hcf, effective_refresh_token,
        if_neg hr]

/-- C8 counterexample: with the customer id missing from the environment
AND no credential material, construction raises the credential error
(`FileNotFoundError`), not the configuration error (`ValueError`) — the
client is built before the customer-id check — so "fails with a
ConfigurationError exactly when the customer identifier is missing or
empty" is false. -/
theorem init_both_missing_is_credential_error :
    ({} : MySeo.Env).customer_id = none ∧
      MySeo.SimpleKeywordResearch.init {} (fun _ => false) "tok" =
        .error .fileNotFoundError ∧
      MySeo.SimpleKeywordResearch.init {} (fun _ => false) "tok" ≠
        .error .valueError := by
  refine ⟨rfl, rfl, ?_⟩
  intro h
  exact InitError.noConfusion (Except.error.inj h)

/-- C8 (amended): construction fails with the credential error
(`CredentialError`/`FileNotFoundError`) exactly when no truthy refresh
token is in the environment and the consent artifact path is
unset/empty or absent on disk — this check runs first; when credentials
are obtainable it fails with the configuration error
(`ConfigurationError`/`ValueError`) exactly when the dash-stripped target
customer id is missing or empty; and when neither condition holds it
yields the authenticated handle. -/
theorem init_error_spec (env : Env) (fs : String → Bool) (tok : String) :
    (SimpleKeywordResearch.init env fs tok = .error .fileNotFoundError ↔
        credential_failure env fs) ∧
      (¬ credential_failure env fs →
        (SimpleKeywordResearch.init env fs tok = .error .valueError ↔
          py_strip_dashes (env.customer_id.getD "") = "")) ∧
      (¬ credential_failure env fs →
        py_strip_dashes (env.customer_id.getD "") ≠ "" →
        SimpleKeywordResearch.init env fs tok =
          .ok { client := build_config env (effective_refresh_token env tok)
                customer_id := py_strip_dashes (env.customer_id.getD "")
                login_customer_id :=
                  py_strip_dashes (env.login_customer_id.getD "") }) := by
  rw [init_cases]
  by_cases hcf : credential_failure env fs
  · rw [if_pos hcf]
    exact ⟨⟨fun _ => hcf, fun _ => rfl⟩, fun h => absurd hcf h,
      fun h => absurd hcf h⟩
  · rw [if_neg hcf]
    by_cases hcid : py_strip_dashes (env.customer_id.getD "") = ""
    · rw [if_pos hcid]
      exact ⟨⟨fun h => InitError.noConfusion (Except.error.inj h),
          fun h => absurd h hcf⟩,
        fun _ => ⟨fun _ => hcid, fun _ => rfl⟩,
        fun _ h => absurd hcid h⟩
    · rw [if_neg hcid]
      exact ⟨⟨fun h => Except.noConfusion h, fun h => absurd h hcf⟩,
        fun _ => ⟨fun h => Except.noConfusion h, fun h => absurd h hcid⟩,
        fun _ _ => rfl⟩

/-- C8 witness: the amended contract evaluated on concrete environments —
a refresh token present with a valid customer id yields the handle; a
refresh token present with the id unset yields the configuration error;
an environment with only an existing consent artifact succeeds through
the OAuth path. -/
theorem init_error_spec_witness :
    MySeo.SimpleKeywordResearch.init
        { customer_id := some "123-456-7890", refresh_token := some "tok" }
        (fun _ => false) "flow" =
      .ok { client := MySeo.build_config
              { customer_id := some "123-456-7890", refresh_token := some "tok" }
              "tok"
            customer_id := "1234567890", login_customer_id := "" } ∧
      MySeo.SimpleKeywordResearch.init { refresh_token := some "tok" }
          (fun _ => false) "flow" =
        .error .valueError ∧
      MySeo.SimpleKeywordResearch.init
          { customer_id := some "42", client_token_path := some "creds.json" }
          (fun p => p == "creds.json") "flow" =
        .ok { client := MySeo.build_config
                { customer_id := some "42",
                  client_token_path := some "creds.json" } "flow"
              customer_id := "42", login_customer_id := "" } :=
  ⟨(MySeo.init_error_spec
      { customer_id := some "123-456-7890", refresh_token := some "tok" }
      (fun _ => false) "flow").2.2 (by decide) (by decide),
    ((MySeo.init_error_spec { refresh_token := some "tok" }
      (fun _ => false) "flow").2.1 (by decide)).mpr (by decide),
    (MySeo.init_error_spec
      { customer_id := some "42", client_token_path := some "creds.json" }
      (fun p => p == "creds.json") "flow").2.2 (by decide) (by decide)⟩

/-- C10: every `'-'` is stripped from the target and login customer ids
before any use — construction cannot distinguish two environments whose
customer ids agree after dash-stripping (nor two login ids that agree
after stripping and are both truthy), "123-456-7890" behaves exactly as
"1234567890" in either field, and the required-id emptiness check is
applied to the dash-stripped value. -/
theorem init_dash_stripping (env : Env) (fs : String → Bool) (tok : String)
    (s t : String) (hst : py_strip_dashes s = py_strip_dashes t)
    (a b : String) (hab : py_strip_dashes a = py_strip_dashes b)
    (htr : py_truthy (some a) = py_truthy (some b)) :
    SimpleKeywordResearch.init { env with customer_id := some s } fs tok =
        SimpleKeywordResearch.init { env with customer_id := some t } fs tok ∧
      SimpleKeywordResearch.init { env with login_customer_id := some a } fs tok =
        SimpleKeywordResearch.init { env with login_customer_id := some b } fs tok ∧
      SimpleKeywordResearch.init
          { env with customer_id := some "123-456-7890" } fs tok =
        SimpleKeywordResearch.init
          { env with customer_id := some "1234567890" } fs tok ∧
      (¬ credential_failure env fs →
        (SimpleKeywordResearch.init env fs tok = .error .valueError ↔
          py_strip_dashes (env.customer_id.getD "") = "")) := by
  have hcid : ∀ u w : String, py_strip_dashes u = py_strip_dashes w →
      SimpleKeywordResearch.init { env with customer_id := some u } fs tok =
        SimpleKeywordResearch.init { env with customer_id := some w } fs tok := by
    intro u w huw
    rw [init_cases, init_cases]
    simp only [credential_failure, build_config, effective_refresh_token,
      Option.getD_some, huw]
  refine ⟨hcid s t hst, ?_, hcid "123-456-7890" "1234567890" (by decide), ?_⟩
  · rw [init_cases, init_cases]
    simp only [credential_failure, build_config, effective_refresh_token,
      Option.getD_some, hab, htr]
  · intro hcf
    rw [init_cases, if_neg hcf]
    by_cases hcid2 : py_strip_dashes (env.customer_id.getD "") = ""
    · rw [if_pos hcid2]
      exact ⟨fun _ => hcid2, fun _ => rfl⟩
    · rw [if_neg hcid2]
      exact ⟨fun h => Except.noConfusion h, fun h => absurd h hcid2⟩

/-- C10 witness: the dash-stripping facts evaluated at a concrete
environment holding dash-formatted ids. -/
theorem init_dash_stripping_witness :
    MySeo.SimpleKeywordResearch.init
        { customer_id := some "123-456-7890", refresh_token := some "tok" }
        (fun _ => false) "flow" =
      MySeo.SimpleKeywordResearch.init
        { customer_id := some "1234567890", refresh_token := some "tok" }
        (fun _ => false) "flow" ∧
      MySeo.SimpleKeywordResearch.init
          { refresh_token := some "tok",
            login_customer_id := some "987-654-3210" }
          (fun _ => false) "flow" =
        MySeo.SimpleKeywordResearch.init
          { refresh_token := some "tok",
            login_customer_id := some "9876543210" }
          (fun _ => false) "flow" :=
  ⟨(MySeo.init_dash_stripping { refresh_token := some "tok" }
      (fun _ => false) "flow" "123-456-7890" "1234567890" (by decide)
      "x" "x" rfl rfl).1,
    (MySeo.init_dash_stripping { refresh_token := some "tok" }
      (fun _ => false) "flow" "s" "s" rfl "987-654-3210" "9876543210"
      (by decide) (by decide)).2.1⟩

end MySeo
